import Mathlib

/-!
# Verification of the remote object mutation protocol (`pkg/publish/s3.go`)

This file gives a shallow embedding of `MutateObject` / `mutateObjectInner`
from `src/pkg/publish/s3.go` and proves properties of the embedding.

Modelling conventions:

* The S3 client, the OS file operations and `io.ReadAll` are external
  collaborators.  Their behaviour during one attempt of the
  fetch-mutate-write cycle is captured by an `AttemptEnv`; a whole run of
  `MutateObject` is driven by a family `Nat → AttemptEnv`, one environment
  per loop iteration.
* Errors produced outside the `publish` package (the store client, the OS,
  `io.ReadAll`) are `ExtErr` values.  Errors as seen by the Go code are
  `GoErr`: an external error propagated as-is (`GoErr.ext`), the package
  sentinel `ErrIndexOutOfDate` created by `errors.New` (`GoErr.errIndexOutOfDate`),
  a fresh `fmt.Errorf` with no wrapped operand (`GoErr.errorf`), or a fresh
  `fmt.Errorf("...: %v", err)` (`GoErr.wrap`).  Go compares errors returned
  by `mutateObjectInner` against the sentinel with `==`, i.e. by identity;
  since `fmt.Errorf` always allocates a fresh value and external packages
  never return this package's sentinel value, identity comparison is
  faithfully modelled by structural equality of `GoErr`.
* The local staging file `outDir/filename` is modelled by an
  `Option String`: `none` when no file exists on disk, `some c` when the
  file exists with contents `c`.  `os.Open` succeeds exactly when the file
  exists; `os.WriteFile` either replaces the contents or fails with an
  injected external error.
* The caller's mutation closure `f func() error` acts on the staging file;
  it is modelled as a function from the staging contents it observes to
  either an error or the staging contents it leaves behind.
* A Go runtime panic (nil pointer dereference) is a third outcome,
  distinct from returning `nil` or returning an error: it aborts the whole
  call, so the retry loop never observes it.
-/

/-- Errors originating outside the `publish` package: from the store client
(`s3.Client`), the OS (`os.WriteFile`, `os.Open`) or `io.ReadAll`.
`notFound` is an error matched by `errors.As(err, &notFoundErr)` with
`*types.NotFound`; `precondFailed` is the store's precondition-failed
(HTTP 412) error for a conditional write; `generic` is any other failure. -/
inductive ExtErr where
  | notFound (msg : String)
  | precondFailed (msg : String)
  | generic (msg : String)
deriving DecidableEq, Repr

/-- Error values as manipulated by the Go code in `s3.go`.  `ext e` is an
external error returned unchanged (`return err`); `errIndexOutOfDate` is
the sentinel `var ErrIndexOutOfDate = errors.New("index is out-of-date")`;
`errorf msg` is `fmt.Errorf(msg)` with no wrapped operand; `wrap ctx e` is
`fmt.Errorf(ctx + ": %v", e)`, which always allocates a fresh error value
and therefore is never identical (`==`) to the sentinel. -/
inductive GoErr where
  | ext (e : ExtErr)
  | errIndexOutOfDate
  | errorf (msg : String)
  | wrap (ctx : String) (e : GoErr)
deriving DecidableEq, Repr

/-- Result of one call of `mutateObjectInner` as the Go runtime sees it:
normal return of `nil`, normal return of a non-nil error, or a runtime
panic that unwinds past the caller (so the retry loop never compares it
to the sentinel). -/
inductive Outcome where
  | ok
  | fail (e : GoErr)
  | crashed (msg : String)
deriving DecidableEq, Repr

/-- The `errors.As(err, &notFoundErr)` test of `s3.go:150-151`. -/
def isNotFound : ExtErr → Bool
  | ExtErr.notFound _ => true
  | _ => false

/-- `aws.ToString` on the `*string` ETag field: `nil` becomes `""`. -/
def awsToString : Option String → String
  | none => ""
  | some s => s

/-- What one `client.GetObject` call can produce: a successful response
carrying the `ETag` pointer (`none` models a nil `*string`) and the result
of `io.ReadAll` on its body, or an error (with a nil response value, as the
AWS SDK returns on failure). -/
inductive GetRes where
  | success (etagPtr : Option String) (body : Except ExtErr String)
  | failure (e : ExtErr)

/-- One `client.GetObject` call as recorded in a trace. -/
structure GetCall where
  bucket : String
  key : String
deriving DecidableEq, Repr

/-- One `client.PutObject` call as recorded in a trace: the
`s3.PutObjectInput` fields set by `mutateObjectInner`. -/
structure PutCall where
  bucket : String
  key : String
  body : String
  cacheControl : Option String
  contentType : Option String
  ifMatch : Option String
deriving DecidableEq, Repr

/-- The behaviour of the external collaborators during one attempt:
what `GetObject` returns, whether `os.WriteFile` of the fetched payload
fails, and what `PutObject` returns for the input it is given
(`none` = success, `some e` = error `e`). -/
structure AttemptEnv where
  get : GetRes
  writeFileErr : Option ExtErr
  put : PutCall → Option ExtErr

/-- The caller's mutation closure `f func() error`: from the staging-file
contents it observes to an error or the staging-file contents it leaves. -/
def Mutation : Type := Option String → Except GoErr (Option String)

/-- Result of one `mutateObjectInner` call: its outcome, the staging-file
state it leaves behind, and the trace of store calls plus the number of
times the mutation closure ran. -/
structure InnerResult where
  outcome : Outcome
  staging : Option String
  gets : List GetCall
  puts : List PutCall
  fCalls : Nat
deriving Repr

/-- The `s3.PutObjectInput` built at s3.go:186-195 (`pubObjectInput`):
bucket, `objName` as key, the staging-file contents as body, fixed
`CacheControl` and `ContentType`, and `IfMatch` set to `etag` exactly when
`etag != ""`. -/
def putInputFor (bucket objName content etag : String) : PutCall :=
  { bucket := bucket, key := objName, body := content,
    cacheControl := some "no-cache, max-age=0, no-transform",
    contentType := some "text/yaml",
    ifMatch := if etag = "" then none else some etag }

/-- The tail of `mutateObjectInner` from the `// Run our action` comment on
(s3.go:174-201): run the closure, re-open the staging file, and issue the
`PutObject` built by `putInputFor`.  When `os.Open(outFile)` fails (the
staging file does not exist) the code evaluates `res.Name()` with `res` a
nil `*os.File` while formatting the error, which dereferences a nil
pointer and panics. -/
def mutateWriteBack (env : AttemptEnv) (outFile bucket objName : String)
    (f : Mutation) (st : Option String) (etag : String) : InnerResult :=
  match f st with
  | Except.error e =>
      { outcome := Outcome.fail (GoErr.wrap "action failed" e), staging := st,
        gets := [⟨bucket, objName⟩], puts := [], fCalls := 1 }
  | Except.ok none =>
      { outcome := Outcome.crashed "invalid memory address or nil pointer dereference",
        staging := none, gets := [⟨bucket, objName⟩], puts := [], fCalls := 1 }
  | Except.ok (some content) =>
      match env.put (putInputFor bucket objName content etag) with
      | some e =>
          { outcome := Outcome.fail (GoErr.wrap ("failed writing " ++ outFile) (GoErr.ext e)),
            staging := some content, gets := [⟨bucket, objName⟩],
            puts := [putInputFor bucket objName content etag], fCalls := 1 }
      | none =>
          { outcome := Outcome.ok, staging := some content,
            gets := [⟨bucket, objName⟩],
            puts := [putInputFor bucket objName content etag], fCalls := 1 }

/-- Split a character list at every `/`, keeping empty segments. -/
def splitOnSlash (cs : List Char) : List (List Char) :=
  cs.foldr (fun c acc =>
    match acc with
    | [] => [[c]]
    | g :: gs => if c = '/' then [] :: g :: gs else (c :: g) :: gs) [[]]

/-- Lexical path cleaning, Go's `path/filepath.Clean` on Unix: drop empty
and `.` elements, resolve `..` against preceding elements (dropping it at
the root), return `.` for an empty result. -/
def cleanPath (p : String) : String :=
  if p = "" then "." else
  let cs := p.data
  let rooted := match cs with | '/' :: _ => true | _ => false
  let comps := splitOnSlash cs
  let out := comps.foldl (fun acc c =>
    if c = ([] : List Char) ∨ c = ['.'] then acc
    else if c = ['.', '.'] then
      match acc with
      | [] => if rooted then [] else [['.', '.']]
      | top :: rest => if top = ['.', '.'] then c :: acc else rest
    else c :: acc) []
  let body := (List.intercalate ['/'] out.reverse).asString
  if rooted then (if body = "" then "/" else "/" ++ body)
  else (if body = "" then "." else body)

/-- Go's `filepath.Join(a, b)`: drop leading empty elements, join the rest
with `/`, and `Clean` the result (`""` when both elements are empty). -/
def goFilepathJoin (a b : String) : String :=
  if a = "" then (if b = "" then "" else cleanPath b)
  else cleanPath (a ++ "/" ++ b)

/-- Shallow embedding of `mutateObjectInner` (s3.go:142-202): compute
`objName` and `outFile` by `filepath.Join`; call `GetObject`; a `NotFound`
error is tolerated (nil response, `etag` stays `""`, the staging file is
left as it is); any other fetch error returns
`fmt.Errorf("failed to fetch attributes: %v", err)`; on a successful fetch
`io.ReadAll` the body and `os.WriteFile` it to the staging file (returning
either error as-is), and take `etag := aws.ToString(objResult.ETag)`;
then hand over to the write-back tail. -/
def mutateObjectInner (env : AttemptEnv) (outDir bucket : String)
    ( objectPrefix : String) (filename : String)
    (f : Mutation) (st : Option String) : InnerResult :=
  match env.get with
  | GetRes.failure e =>
      if isNotFound e then
        mutateWriteBack env (goFilepathJoin outDir filename) bucket
          (goFilepathJoin objectPrefix filename) f st ""
      else
        { outcome := Outcome.fail (GoErr.wrap "failed to fetch attributes" (GoErr.ext e)),
          staging := st, gets := [⟨bucket, goFilepathJoin objectPrefix filename⟩],
          puts := [], fCalls := 0 }
  | GetRes.success etagPtr body =>
      match body with
      | Except.error e =>
          { outcome := Outcome.fail (GoErr.ext e), staging := st,
            gets := [⟨bucket, goFilepathJoin objectPrefix filename⟩],
            puts := [], fCalls := 0 }
      | Except.ok idx =>
          match env.writeFileErr with
          | some e =>
              { outcome := Outcome.fail (GoErr.ext e), staging := st,
                gets := [⟨bucket, goFilepathJoin objectPrefix filename⟩],
                puts := [], fCalls := 0 }
          | none =>
              mutateWriteBack env (goFilepathJoin outDir filename) bucket
                (goFilepathJoin objectPrefix filename) f (some idx) (awsToString etagPtr)

/-- Result of a whole `MutateObject` call: final outcome, final staging
state, full trace of store calls, closure invocation count, and the number
of attempts (calls of `mutateObjectInner`) performed. -/
structure MutateResult where
  outcome : Outcome
  staging : Option String
  gets : List GetCall
  puts : List PutCall
  fCalls : Nat
  attempts : Nat
deriving Repr

/-- The retry loop of `MutateObject` (s3.go:131-139), with `fuel` the
remaining iterations and `i` the current loop index: run
`mutateObjectInner`; when it returns a value identical to the sentinel
`ErrIndexOutOfDate`, `continue`; otherwise return the result (a panic
likewise stops the loop, by unwinding).  When the fuel is exhausted return
`fmt.Errorf("max conflicts attempted")`. -/
def mutateObjectAux (envs : Nat → AttemptEnv) (outDir bucket : String)
    ( objectPrefix : String) (filename : String) (f : Mutation) :
    Nat → Nat → Option String → List GetCall → List PutCall → Nat → MutateResult
  | 0, i, st, gets, puts, calls =>
      { outcome := Outcome.fail (GoErr.errorf "max conflicts attempted"), staging := st,
        gets := gets, puts := puts, fCalls := calls, attempts := i }
  | fuel + 1, i, st, gets, puts, calls =>
      let r := mutateObjectInner (envs i) outDir bucket objectPrefix filename f st
      if r.outcome = Outcome.fail GoErr.errIndexOutOfDate then
        mutateObjectAux envs outDir bucket objectPrefix filename f fuel (i + 1)
          r.staging (gets ++ r.gets) (puts ++ r.puts) (calls + r.fCalls)
      else
        { outcome := r.outcome, staging := r.staging, gets := gets ++ r.gets,
          puts := puts ++ r.puts, fCalls := calls + r.fCalls, attempts := i + 1 }

/-- Shallow embedding of `MutateObject` (s3.go:130-140): up to 10 attempts
of the fetch-mutate-write cycle, retrying exactly when the attempt's error
is the sentinel `ErrIndexOutOfDate`. -/
def MutateObject (envs : Nat → AttemptEnv) (outDir bucket : String)
    ( objectPrefix : String) (filename : String) (f : Mutation)
    (st : Option String) : MutateResult :=
  mutateObjectAux envs outDir bucket objectPrefix filename f 10 0 st [] [] 0

/-! ## Branch equations for `mutateWriteBack` and `mutateObjectInner` -/

/-- When the mutation closure fails, the attempt returns the wrapped
`action failed` error without touching the store. -/
theorem mutateWriteBack_action_error (env : AttemptEnv) (outFile bucket objName : String)
    (f : Mutation) (st : Option String) (etag : String) (e : GoErr)
    (hf : f st = Except.error e) :
    mutateWriteBack env outFile bucket objName f st etag =
      { outcome := Outcome.fail (GoErr.wrap "action failed" e), staging := st,
        gets := [⟨bucket, objName⟩], puts := [], fCalls := 1 } := by
  unfold mutateWriteBack
  rw [hf]

/-- When the closure succeeds but leaves no staging file, `os.Open` fails
and the error-formatting call `res.Name()` dereferences a nil pointer. -/
theorem mutateWriteBack_open_crash (env : AttemptEnv) (outFile bucket objName : String)
    (f : Mutation) (st : Option String) (etag : String)
    (hf : f st = Except.ok none) :
    mutateWriteBack env outFile bucket objName f st etag =
      { outcome := Outcome.crashed "invalid memory address or nil pointer dereference",
        staging := none, gets := [⟨bucket, objName⟩], puts := [], fCalls := 1 } := by
  unfold mutateWriteBack
  rw [hf]

/-- When the closure succeeds and leaves contents `c`, the attempt issues
exactly the `putInputFor` write and returns its (possibly wrapped) result. -/
theorem mutateWriteBack_put (env : AttemptEnv) (outFile bucket objName : String)
    (f : Mutation) (st : Option String) (etag c : String)
    (hf : f st = Except.ok (some c)) :
    mutateWriteBack env outFile bucket objName f st etag =
      { outcome :=
          match env.put (putInputFor bucket objName c etag) with
          | some e => Outcome.fail (GoErr.wrap ("failed writing " ++ outFile) (GoErr.ext e))
          | none => Outcome.ok,
        staging := some c, gets := [⟨bucket, objName⟩],
        puts := [putInputFor bucket objName c etag], fCalls := 1 } := by
  rcases hp : env.put (putInputFor bucket objName c etag) with _ | e <;>
    simp [mutateWriteBack, hf, hp]

/-- Whatever the closure and the store do, the write-back tail never
returns the sentinel `ErrIndexOutOfDate`. -/
theorem mutateWriteBack_no_sentinel (env : AttemptEnv) (outFile bucket objName : String)
    (f : Mutation) (st : Option String) (etag : String) :
    (mutateWriteBack env outFile bucket objName f st etag).outcome ≠
      Outcome.fail GoErr.errIndexOutOfDate := by
  rcases hf : f st with e | st2
  · rw [mutateWriteBack_action_error env outFile bucket objName f st etag e hf]
    simp
  · rcases st2 with _ | c
    · rw [mutateWriteBack_open_crash env outFile bucket objName f st etag hf]
      simp
    · rw [mutateWriteBack_put env outFile bucket objName f st etag c hf]
      cases env.put (putInputFor bucket objName c etag) <;> simp

/-- Branch equation: a fetch failure that is not `NotFound` returns the
wrapped fetch error before the closure runs. -/
theorem mutateObjectInner_fetch_generic (env : AttemptEnv) (outDir bucket : String)
    ( objectPrefix : String) (filename : String) (f : Mutation) (st : Option String)
    (e : ExtErr) (hget : env.get = GetRes.failure e) (hnf : isNotFound e = false) :
    mutateObjectInner env outDir bucket objectPrefix filename f st =
      { outcome := Outcome.fail (GoErr.wrap "failed to fetch attributes" (GoErr.ext e)),
        staging := st, gets := [⟨bucket, goFilepathJoin objectPrefix filename⟩],
        puts := [], fCalls := 0 } := by
  simp [mutateObjectInner, hget, hnf]

/-- Branch equation: a `NotFound` fetch hands over to the write-back tail
with the staging file untouched and an empty `etag`. -/
theorem mutateObjectInner_fetch_notFound (env : AttemptEnv) (outDir bucket : String)
    ( objectPrefix : String) (filename : String) (f : Mutation) (st : Option String)
    (m : String) (hget : env.get = GetRes.failure (ExtErr.notFound m)) :
    mutateObjectInner env outDir bucket objectPrefix filename f st =
      mutateWriteBack env (goFilepathJoin outDir filename) bucket
        (goFilepathJoin objectPrefix filename) f st "" := by
  simp [mutateObjectInner, hget, isNotFound]

/-- Branch equation: a successful fetch whose body read fails returns that
error as-is, before the closure runs. -/
theorem mutateObjectInner_read_error (env : AttemptEnv) (outDir bucket : String)
    ( objectPrefix : String) (filename : String) (f : Mutation) (st : Option String)
    (tp : Option String) (e : ExtErr)
    (hget : env.get = GetRes.success tp (Except.error e)) :
    mutateObjectInner env outDir bucket objectPrefix filename f st =
      { outcome := Outcome.fail (GoErr.ext e), staging := st,
        gets := [⟨bucket, goFilepathJoin objectPrefix filename⟩],
        puts := [], fCalls := 0 } := by
  simp [mutateObjectInner, hget]

/-- Branch equation: a successful fetch whose `os.WriteFile` fails returns
that error as-is, before the closure runs. -/
theorem mutateObjectInner_writeFile_error (env : AttemptEnv) (outDir bucket : String)
    ( objectPrefix : String) (filename : String) (f : Mutation) (st : Option String)
    (tp : Option String) (idx : String) (e : ExtErr)
    (hget : env.get = GetRes.success tp (Except.ok idx))
    (hwf : env.writeFileErr = some e) :
    mutateObjectInner env outDir bucket objectPrefix filename f st =
      { outcome := Outcome.fail (GoErr.ext e), staging := st,
        gets := [⟨bucket, goFilepathJoin objectPrefix filename⟩],
        puts := [], fCalls := 0 } := by
  simp [mutateObjectInner, hget, hwf]

/-- Branch equation: a fully successful fetch overwrites the staging file
with the fetched payload and hands over to the write-back tail with the
observed `etag`. -/
theorem mutateObjectInner_fetch_success (env : AttemptEnv) (outDir bucket : String)
    ( objectPrefix : String) (filename : String) (f : Mutation) (st : Option String)
    (tp : Option String) (idx : String)
    (hget : env.get = GetRes.success tp (Except.ok idx))
    (hwf : env.writeFileErr = none) :
    mutateObjectInner env outDir bucket objectPrefix filename f st =
      mutateWriteBack env (goFilepathJoin outDir filename) bucket
        (goFilepathJoin objectPrefix filename) f (some idx) (awsToString tp) := by
  simp [mutateObjectInner, hget, hwf]

/-- No branch of `mutateObjectInner` returns the sentinel
`ErrIndexOutOfDate`: every error is freshly allocated by `fmt.Errorf` or
propagated from the external collaborators. -/
theorem mutateObjectInner_no_sentinel (env : AttemptEnv) (outDir bucket : String)
    ( objectPrefix : String) (filename : String) (f : Mutation) (st : Option String) :
    (mutateObjectInner env outDir bucket objectPrefix filename f st).outcome ≠
      Outcome.fail GoErr.errIndexOutOfDate := by
  rcases hget : env.get with ⟨tp, body⟩ | e
  · rcases body with e | idx
    · rw [mutateObjectInner_read_error env outDir bucket objectPrefix filename f st tp e hget]
      simp
    · rcases hwf : env.writeFileErr with _ | e
      · rw [mutateObjectInner_fetch_success env outDir bucket objectPrefix filename f st
          tp idx hget hwf]
        exact mutateWriteBack_no_sentinel _ _ _ _ _ _ _
      · rw [mutateObjectInner_writeFile_error env outDir bucket objectPrefix filename f st
          tp idx e hget hwf]
        simp
  · rcases e with m | m | m
    · rw [mutateObjectInner_fetch_notFound env outDir bucket objectPrefix filename f st m hget]
      exact mutateWriteBack_no_sentinel _ _ _ _ _ _ _
    · rw [mutateObjectInner_fetch_generic env outDir bucket objectPrefix filename f st
        (ExtErr.precondFailed m) hget rfl]
      simp
    · rw [mutateObjectInner_fetch_generic env outDir bucket objectPrefix filename f st
        (ExtErr.generic m) hget rfl]
      simp

/-- Unfolding the first iteration of the retry loop. -/
theorem MutateObject_unfold (envs : Nat → AttemptEnv) (outDir bucket : String)
    ( objectPrefix : String) (filename : String) (f : Mutation) (st : Option String) :
    MutateObject envs outDir bucket objectPrefix filename f st =
      (if (mutateObjectInner (envs 0) outDir bucket objectPrefix filename f st).outcome =
            Outcome.fail GoErr.errIndexOutOfDate then
        mutateObjectAux envs outDir bucket objectPrefix filename f 9 1
          (mutateObjectInner (envs 0) outDir bucket objectPrefix filename f st).staging
          (mutateObjectInner (envs 0) outDir bucket objectPrefix filename f st).gets
          (mutateObjectInner (envs 0) outDir bucket objectPrefix filename f st).puts
          (0 + (mutateObjectInner (envs 0) outDir bucket objectPrefix filename f st).fCalls)
      else
        { outcome := (mutateObjectInner (envs 0) outDir bucket objectPrefix filename f st).outcome,
          staging := (mutateObjectInner (envs 0) outDir bucket objectPrefix filename f st).staging,
          gets := (mutateObjectInner (envs 0) outDir bucket objectPrefix filename f st).gets,
          puts := (mutateObjectInner (envs 0) outDir bucket objectPrefix filename f st).puts,
          fCalls := 0 + (mutateObjectInner (envs 0) outDir bucket objectPrefix filename f st).fCalls,
          attempts := 1 }) := by
  rfl

/-- Since no attempt ever produces the sentinel, `MutateObject` performs
exactly one attempt and returns its result unchanged. -/
theorem MutateObject_single (envs : Nat → AttemptEnv) (outDir bucket : String)
    ( objectPrefix : String) (filename : String) (f : Mutation) (st : Option String) :
    MutateObject envs outDir bucket objectPrefix filename f st =
      { outcome := (mutateObjectInner (envs 0) outDir bucket objectPrefix filename f st).outcome,
        staging := (mutateObjectInner (envs 0) outDir bucket objectPrefix filename f st).staging,
        gets := (mutateObjectInner (envs 0) outDir bucket objectPrefix filename f st).gets,
        puts := (mutateObjectInner (envs 0) outDir bucket objectPrefix filename f st).puts,
        fCalls := (mutateObjectInner (envs 0) outDir bucket objectPrefix filename f st).fCalls,
        attempts := 1 } := by
  rw [MutateObject_unfold,
    if_neg (mutateObjectInner_no_sentinel (envs 0) outDir bucket objectPrefix filename f st)]
  simp [Nat.zero_add]

/-! ## Shapes of the call traces -/

/-- The write-back tail issues only writes built by `putInputFor` for the
bucket, key and etag of the current attempt. -/
theorem mutateWriteBack_puts_shape (env : AttemptEnv) (outFile bucket objName : String)
    (f : Mutation) (st : Option String) (etag : String) :
    ∀ p ∈ (mutateWriteBack env outFile bucket objName f st etag).puts,
      ∃ c, p = putInputFor bucket objName c etag := by
  rcases hf : f st with e | st2
  · rw [mutateWriteBack_action_error env outFile bucket objName f st etag e hf]
    simp
  · rcases st2 with _ | c
    · rw [mutateWriteBack_open_crash env outFile bucket objName f st etag hf]
      simp
    · rw [mutateWriteBack_put env outFile bucket objName f st etag c hf]
      intro p hp
      simp only [List.mem_singleton] at hp
      exact ⟨c, hp⟩

/-- The write-back tail records exactly the one fetch of the attempt. -/
theorem mutateWriteBack_gets (env : AttemptEnv) (outFile bucket objName : String)
    (f : Mutation) (st : Option String) (etag : String) :
    (mutateWriteBack env outFile bucket objName f st etag).gets = [⟨bucket, objName⟩] := by
  rcases hf : f st with e | st2
  · rw [mutateWriteBack_action_error env outFile bucket objName f st etag e hf]
  · rcases st2 with _ | c
    · rw [mutateWriteBack_open_crash env outFile bucket objName f st etag hf]
    · rw [mutateWriteBack_put env outFile bucket objName f st etag c hf]

/-- Every write issued by an attempt is a `putInputFor` for the bucket and
the joined object key of that attempt. -/
theorem mutateObjectInner_puts_shape (env : AttemptEnv) (outDir bucket : String)
    ( objectPrefix : String) (filename : String) (f : Mutation) (st : Option String) :
    ∀ p ∈ (mutateObjectInner env outDir bucket objectPrefix filename f st).puts,
      ∃ c etag, p = putInputFor bucket (goFilepathJoin objectPrefix filename) c etag := by
  rcases hget : env.get with ⟨tp, body⟩ | e
  · rcases body with eb | idx
    · rw [mutateObjectInner_read_error env outDir bucket objectPrefix filename f st tp eb hget]
      simp
    · rcases hwf : env.writeFileErr with _ | ew
      · rw [mutateObjectInner_fetch_success env outDir bucket objectPrefix filename f st
          tp idx hget hwf]
        intro p hp
        obtain ⟨c, hc⟩ := mutateWriteBack_puts_shape env _ bucket _ f (some idx)
          (awsToString tp) p hp
        exact ⟨c, awsToString tp, hc⟩
      · rw [mutateObjectInner_writeFile_error env outDir bucket objectPrefix filename f st
          tp idx ew hget hwf]
        simp
  · rcases e with m | m | m
    · rw [mutateObjectInner_fetch_notFound env outDir bucket objectPrefix filename f st m hget]
      intro p hp
      obtain ⟨c, hc⟩ := mutateWriteBack_puts_shape env _ bucket _ f st "" p hp
      exact ⟨c, "", hc⟩
    · rw [mutateObjectInner_fetch_generic env outDir bucket objectPrefix filename f st
        (ExtErr.precondFailed m) hget rfl]
      simp
    · rw [mutateObjectInner_fetch_generic env outDir bucket objectPrefix filename f st
        (ExtErr.generic m) hget rfl]
      simp

/-- Every attempt performs exactly one fetch, of the bucket and the joined
object key. -/
theorem mutateObjectInner_gets (env : AttemptEnv) (outDir bucket : String)
    ( objectPrefix : String) (filename : String) (f : Mutation) (st : Option String) :
    (mutateObjectInner env outDir bucket objectPrefix filename f st).gets =
      [⟨bucket, goFilepathJoin objectPrefix filename⟩] := by
  rcases hget : env.get with ⟨tp, body⟩ | e
  · rcases body with eb | idx
    · rw [mutateObjectInner_read_error env outDir bucket objectPrefix filename f st tp eb hget]
    · rcases hwf : env.writeFileErr with _ | ew
      · rw [mutateObjectInner_fetch_success env outDir bucket objectPrefix filename f st
          tp idx hget hwf]
        exact mutateWriteBack_gets env _ bucket _ f (some idx) (awsToString tp)
      · rw [mutateObjectInner_writeFile_error env outDir bucket objectPrefix filename f st
          tp idx ew hget hwf]
  · rcases e with m | m | m
    · rw [mutateObjectInner_fetch_notFound env outDir bucket objectPrefix filename f st m hget]
      exact mutateWriteBack_gets env _ bucket _ f st ""
    · rw [mutateObjectInner_fetch_generic env outDir bucket objectPrefix filename f st
        (ExtErr.precondFailed m) hget rfl]
    · rw [mutateObjectInner_fetch_generic env outDir bucket objectPrefix filename f st
        (ExtErr.generic m) hget rfl]

/-! ## Concrete collaborator behaviours used in the closed theorems -/

/-- A store client for the P3 scenario: the object exists with tag
`etag1`, its body reads as `v1`, and every `PutObject` fails with the
store's precondition-failed error. -/
def envAlwaysConflict : AttemptEnv :=
  { get := GetRes.success (some "etag1") (Except.ok "v1"),
    writeFileErr := none,
    put := fun _ => some (ExtErr.precondFailed "api error PreconditionFailed") }

/-- A store client whose `Get` reports NotFound and whose `PutObject`
succeeds. -/
def envNotFoundOk : AttemptEnv :=
  { get := GetRes.failure (ExtErr.notFound "StatusCode: 404"),
    writeFileErr := none, put := fun _ => none }

/-- A store client holding an object whose `ETag` pointer is nil. -/
def envNilEtag : AttemptEnv :=
  { get := GetRes.success none (Except.ok "v1"),
    writeFileErr := none, put := fun _ => none }

/-- A store client holding an object with tag `etag1` and body `v1`;
every write succeeds. -/
def envWithEtag : AttemptEnv :=
  { get := GetRes.success (some "etag1") (Except.ok "v1"),
    writeFileErr := none, put := fun _ => none }

/-- A store client whose `Get` fails with a generic error. -/
def envGetGeneric : AttemptEnv :=
  { get := GetRes.failure (ExtErr.generic "connection timeout"),
    writeFileErr := none, put := fun _ => none }

/-- A store client whose `Get` reports NotFound and whose `PutObject`
fails with a generic error. -/
def envPutGeneric : AttemptEnv :=
  { get := GetRes.failure (ExtErr.notFound "StatusCode: 404"),
    writeFileErr := none, put := fun _ => some (ExtErr.generic "AccessDenied") }

/-- A store client whose `Get` succeeds but whose response body fails to
read. -/
def envReadErr : AttemptEnv :=
  { get := GetRes.success (some "etag1") (Except.error (ExtErr.generic "connection reset")),
    writeFileErr := none, put := fun _ => none }

/-- A store client whose `Get` succeeds while `os.WriteFile` of the
payload fails. -/
def envWriteFileErr : AttemptEnv :=
  { get := GetRes.success (some "etag1") (Except.ok "v1"),
    writeFileErr := some (ExtErr.generic "no space left on device"),
    put := fun _ => none }

/-- A closure that rewrites the staging file to `v1` and succeeds. -/
def mutToV1 : Mutation := fun _ => Except.ok (some "v1")

/-- A closure that rewrites the staging file to `v2` and succeeds. -/
def mutToV2 : Mutation := fun _ => Except.ok (some "v2")

/-- A closure that leaves the staging file exactly as it found it. -/
def mutKeep : Mutation := fun s => Except.ok s

/-- A closure that always fails. -/
def mutFail : Mutation := fun _ => Except.error (GoErr.errorf "boom")

/-! ## Claims -/

/-- Claim C1 (status: code_bug).  The spec requires that, with a store
client reporting a conflict (precondition-failed) on every conditional
write, `MutateObject` fail with the MaxConflictsExceeded error
(`max conflicts attempted`) after exactly 10 attempts, with the mutation
closure invoked exactly 10 times.  The code instead gives up after a
single attempt with a single closure invocation and returns the wrapped
write failure: no code path maps the store's precondition-failed error to
the sentinel `ErrIndexOutOfDate` that the retry loop at s3.go:133 checks
for, so the retry never triggers.  This theorem evaluates the embedding at
the failing input. -/
theorem C1_conflict_write_not_retried :
    (MutateObject (fun _ => envAlwaysConflict) "/tmp/x" "b" "charts" "index.yaml"
        mutToV2 none).attempts = 1 ∧
    (MutateObject (fun _ => envAlwaysConflict) "/tmp/x" "b" "charts" "index.yaml"
        mutToV2 none).fCalls = 1 ∧
    (MutateObject (fun _ => envAlwaysConflict) "/tmp/x" "b" "charts" "index.yaml"
        mutToV2 none).outcome =
      Outcome.fail (GoErr.wrap "failed writing /tmp/x/index.yaml"
        (GoErr.ext (ExtErr.precondFailed "api error PreconditionFailed"))) ∧
    (MutateObject (fun _ => envAlwaysConflict) "/tmp/x" "b" "charts" "index.yaml"
        mutToV2 none).outcome ≠
      Outcome.fail (GoErr.errorf "max conflicts attempted") := by
  decide

/-- Claim C2 (status: confirmed).  For every client behaviour and every
mutation closure, `mutateObjectInner` never returns the sentinel
`ErrIndexOutOfDate` — every error it returns is freshly built by
`fmt.Errorf` or propagated from external I/O — so `MutateObject` performs
exactly one attempt and returns its result unchanged; in particular the
`max conflicts attempted` branch is unreachable. -/
theorem C2_single_attempt_refinement (envs : Nat → AttemptEnv) (outDir bucket : String)
    (pre fn : String) (f : Mutation) (st : Option String) :
    (mutateObjectInner (envs 0) outDir bucket pre fn f st).outcome ≠
      Outcome.fail GoErr.errIndexOutOfDate ∧
    MutateObject envs outDir bucket pre fn f st =
      { outcome := (mutateObjectInner (envs 0) outDir bucket pre fn f st).outcome,
        staging := (mutateObjectInner (envs 0) outDir bucket pre fn f st).staging,
        gets := (mutateObjectInner (envs 0) outDir bucket pre fn f st).gets,
        puts := (mutateObjectInner (envs 0) outDir bucket pre fn f st).puts,
        fCalls := (mutateObjectInner (envs 0) outDir bucket pre fn f st).fCalls,
        attempts := 1 } :=
  ⟨mutateObjectInner_no_sentinel (envs 0) outDir bucket pre fn f st,
   MutateObject_single envs outDir bucket pre fn f st⟩

/-- Claim C3 (status: confirmed).  When the store's `Get` reports
NotFound, `MutateObject` does not fail on the fetch step: no version token
is recorded (the write-back runs with `etag = ""`), the staging file is
left untouched for the closure (which receives exactly the pre-existing
contents `st`), the closure is invoked, and — the closure having left
contents `c` — the one `Put` issued carries no `IfMatch` token; the final
outcome is exactly the result of that unconditioned `Put`. -/
theorem C3_notFound_bootstrap (envs : Nat → AttemptEnv) (outDir bucket pre fn m : String)
    (f : Mutation) (st : Option String) (c : String)
    (hget : (envs 0).get = GetRes.failure (ExtErr.notFound m))
    (hf : f st = Except.ok (some c)) :
    (MutateObject envs outDir bucket pre fn f st).attempts = 1 ∧
    (MutateObject envs outDir bucket pre fn f st).fCalls = 1 ∧
    (MutateObject envs outDir bucket pre fn f st).puts =
      [putInputFor bucket (goFilepathJoin pre fn) c ""] ∧
    (putInputFor bucket (goFilepathJoin pre fn) c "").ifMatch = none ∧
    (MutateObject envs outDir bucket pre fn f st).outcome =
      (match (envs 0).put (putInputFor bucket (goFilepathJoin pre fn) c "") with
       | some e => Outcome.fail (GoErr.wrap ("failed writing " ++ goFilepathJoin outDir fn)
           (GoErr.ext e))
       | none => Outcome.ok) := by
  rw [MutateObject_single,
    mutateObjectInner_fetch_notFound (envs 0) outDir bucket pre fn f st m hget,
    mutateWriteBack_put (envs 0) (goFilepathJoin outDir fn) bucket (goFilepathJoin pre fn)
      f st "" c hf]
  exact ⟨rfl, rfl, rfl, rfl, rfl⟩

/-- Witness for C3: the bootstrap scenario of the spec, with a staging
file holding `v0`, a closure that rewrites it to `v1`, and a store whose
`Put` succeeds. -/
theorem C3_notFound_bootstrap_witness :
    (MutateObject (fun _ => envNotFoundOk) "/tmp/x" "b" "charts" "index.yaml"
        mutToV1 (some "v0")).attempts = 1 ∧
    (MutateObject (fun _ => envNotFoundOk) "/tmp/x" "b" "charts" "index.yaml"
        mutToV1 (some "v0")).fCalls = 1 ∧
    (MutateObject (fun _ => envNotFoundOk) "/tmp/x" "b" "charts" "index.yaml"
        mutToV1 (some "v0")).puts =
      [putInputFor "b" (goFilepathJoin "charts" "index.yaml") "v1" ""] ∧
    (putInputFor "b" (goFilepathJoin "charts" "index.yaml") "v1" "").ifMatch = none ∧
    (MutateObject (fun _ => envNotFoundOk) "/tmp/x" "b" "charts" "index.yaml"
        mutToV1 (some "v0")).outcome = Outcome.ok :=
  C3_notFound_bootstrap (fun _ => envNotFoundOk) "/tmp/x" "b" "charts" "index.yaml"
    "StatusCode: 404" mutToV1 (some "v0") "v1" rfl rfl

/-- Claim C4 counterexample (status: corrected).  The claim states that
the conditional-write token is omitted exactly when no object existed at
fetch time.  But the code omits `IfMatch` whenever the recorded token is
the empty string (`if etag != ""`, s3.go:193), and an existing object can
carry a nil `ETag` pointer, which `aws.ToString` turns into `""`: here the
fetch succeeds (the object exists, payload `v1`), yet the issued `Put`
carries no `IfMatch`. -/
theorem C4_counterexample :
    envNilEtag.get = GetRes.success none (Except.ok "v1") ∧
    awsToString none = "" ∧
    (MutateObject (fun _ => envNilEtag) "/tmp/x" "b" "charts" "index.yaml"
        mutToV2 none).puts =
      [putInputFor "b" "charts/index.yaml" "v2" ""] ∧
    (putInputFor "b" "charts/index.yaml" "v2" "").ifMatch = none := by
  refine ⟨rfl, rfl, ?_, rfl⟩
  decide

/-- Claim C4 as amended (status: corrected).  Whenever the fetch succeeds,
the fetched payload is written to the local staging file, fully
overwriting any prior contents (the closure observes exactly `some idx`,
whatever `st` was before), and the version token `aws.ToString(ETag)` is
recorded; the subsequent write is conditioned on exactly that token —
`IfMatch` equals the recorded token — except that the condition is omitted
when the recorded token is empty, which happens when no object existed at
fetch time and also when an existing object reports an absent or empty
entity tag. -/
theorem C4_conditional_write_token (envs : Nat → AttemptEnv) (outDir bucket pre fn : String)
    (f : Mutation) (st : Option String) (tp : Option String) (idx c : String)
    (hget : (envs 0).get = GetRes.success tp (Except.ok idx))
    (hwf : (envs 0).writeFileErr = none)
    (hf : f (some idx) = Except.ok (some c)) :
    (MutateObject envs outDir bucket pre fn f st).fCalls = 1 ∧
    (MutateObject envs outDir bucket pre fn f st).puts =
      [putInputFor bucket (goFilepathJoin pre fn) c (awsToString tp)] ∧
    (putInputFor bucket (goFilepathJoin pre fn) c (awsToString tp)).ifMatch =
      (if awsToString tp = "" then none else some (awsToString tp)) := by
  rw [MutateObject_single,
    mutateObjectInner_fetch_success (envs 0) outDir bucket pre fn f st tp idx hget hwf,
    mutateWriteBack_put (envs 0) (goFilepathJoin outDir fn) bucket (goFilepathJoin pre fn)
      f (some idx) (awsToString tp) c hf]
  exact ⟨rfl, rfl, rfl⟩

/-- Witness for the amended C4: the scenario of the spec, an object with
tag `etag1` and payload `v1`, a closure rewriting the staging file to
`v2`; the one write issued is conditioned on `IfMatch = etag1`. -/
theorem C4_conditional_write_token_witness :
    (MutateObject (fun _ => envWithEtag) "/tmp/x" "b" "charts" "index.yaml"
        mutToV2 none).fCalls = 1 ∧
    (MutateObject (fun _ => envWithEtag) "/tmp/x" "b" "charts" "index.yaml"
        mutToV2 none).puts =
      [putInputFor "b" (goFilepathJoin "charts" "index.yaml") "v2" (awsToString (some "etag1"))] ∧
    (putInputFor "b" (goFilepathJoin "charts" "index.yaml") "v2"
        (awsToString (some "etag1"))).ifMatch =
      (if awsToString (some "etag1") = "" then none else some (awsToString (some "etag1"))) :=
  C4_conditional_write_token (fun _ => envWithEtag) "/tmp/x" "b" "charts" "index.yaml"
    mutToV2 none (some "etag1") "v1" "v2" rfl rfl rfl

/-- Claim C5 (status: confirmed).  A generic failure (neither NotFound nor
precondition-failed) of `Get`, or of the unconditioned `Put` of the
bootstrap path, is returned — wrapped with its context — after exactly one
attempt; the closure runs zero times when the fetch fails, once when the
write fails. -/
theorem C5_generic_failure_no_retry (envs : Nat → AttemptEnv) (outDir bucket pre fn : String)
    (f : Mutation) (st : Option String) (mg nf mp : String) (c : String) :
    ((envs 0).get = GetRes.failure (ExtErr.generic mg) →
      (MutateObject envs outDir bucket pre fn f st).attempts = 1 ∧
      (MutateObject envs outDir bucket pre fn f st).fCalls = 0 ∧
      (MutateObject envs outDir bucket pre fn f st).puts = [] ∧
      (MutateObject envs outDir bucket pre fn f st).outcome =
        Outcome.fail (GoErr.wrap "failed to fetch attributes"
          (GoErr.ext (ExtErr.generic mg)))) ∧
    ((envs 0).get = GetRes.failure (ExtErr.notFound nf) →
      f st = Except.ok (some c) →
      (envs 0).put (putInputFor bucket (goFilepathJoin pre fn) c "") =
        some (ExtErr.generic mp) →
      (MutateObject envs outDir bucket pre fn f st).attempts = 1 ∧
      (MutateObject envs outDir bucket pre fn f st).fCalls = 1 ∧
      (MutateObject envs outDir bucket pre fn f st).puts.map PutCall.ifMatch = [none] ∧
      (MutateObject envs outDir bucket pre fn f st).outcome =
        Outcome.fail (GoErr.wrap ("failed writing " ++ goFilepathJoin outDir fn)
          (GoErr.ext (ExtErr.generic mp)))) := by
  constructor
  · intro hget
    rw [MutateObject_single, mutateObjectInner_fetch_generic (envs 0) outDir bucket pre fn
      f st (ExtErr.generic mg) hget rfl]
    exact ⟨rfl, rfl, rfl, rfl⟩
  · intro hget hf hp
    rw [MutateObject_single,
      mutateObjectInner_fetch_notFound (envs 0) outDir bucket pre fn f st nf hget,
      mutateWriteBack_put (envs 0) (goFilepathJoin outDir fn) bucket (goFilepathJoin pre fn)
        f st "" c hf]
    refine ⟨rfl, rfl, rfl, ?_⟩
    simp [hp]

/-- Witness for C5: a fetch failing with a generic error yields one
attempt and no closure invocation; an unconditioned write failing with a
generic error yields one attempt and one closure invocation. -/
theorem C5_generic_failure_no_retry_witness :
    ((MutateObject (fun _ => envGetGeneric) "/tmp/x" "b" "charts" "index.yaml"
        mutToV1 none).attempts = 1 ∧
     (MutateObject (fun _ => envGetGeneric) "/tmp/x" "b" "charts" "index.yaml"
        mutToV1 none).fCalls = 0 ∧
     (MutateObject (fun _ => envGetGeneric) "/tmp/x" "b" "charts" "index.yaml"
        mutToV1 none).puts = [] ∧
     (MutateObject (fun _ => envGetGeneric) "/tmp/x" "b" "charts" "index.yaml"
        mutToV1 none).outcome =
       Outcome.fail (GoErr.wrap "failed to fetch attributes"
         (GoErr.ext (ExtErr.generic "connection timeout")))) ∧
    ((MutateObject (fun _ => envPutGeneric) "/tmp/x" "b" "charts" "index.yaml"
        mutToV1 none).attempts = 1 ∧
     (MutateObject (fun _ => envPutGeneric) "/tmp/x" "b" "charts" "index.yaml"
        mutToV1 none).fCalls = 1 ∧
     (MutateObject (fun _ => envPutGeneric) "/tmp/x" "b" "charts" "index.yaml"
        mutToV1 none).puts.map PutCall.ifMatch = [none] ∧
     (MutateObject (fun _ => envPutGeneric) "/tmp/x" "b" "charts" "index.yaml"
        mutToV1 none).outcome =
       Outcome.fail (GoErr.wrap ("failed writing " ++ goFilepathJoin "/tmp/x" "index.yaml")
         (GoErr.ext (ExtErr.generic "AccessDenied")))) :=
  ⟨(C5_generic_failure_no_retry (fun _ => envGetGeneric) "/tmp/x" "b" "charts" "index.yaml"
      mutToV1 none "connection timeout" "StatusCode: 404" "AccessDenied" "v1").1 rfl,
   (C5_generic_failure_no_retry (fun _ => envPutGeneric) "/tmp/x" "b" "charts" "index.yaml"
      mutToV1 none "connection timeout" "StatusCode: 404" "AccessDenied" "v1").2 rfl rfl rfl⟩

/-- Claim C6 (status: confirmed).  A closure that fails whenever invoked
makes `MutateObject` surface the (wrapped) failure immediately after the
attempt in which the closure failed: exactly one attempt runs, no write is
issued in it, the failure is never the retryable sentinel, and whenever
the closure did run the outcome is exactly its wrapped error. -/
theorem C6_mutation_failure_immediate (envs : Nat → AttemptEnv) (outDir bucket pre fn : String)
    (f : Mutation) (st : Option String) (e : GoErr)
    (hf : ∀ s, f s = Except.error e) :
    (MutateObject envs outDir bucket pre fn f st).attempts = 1 ∧
    (MutateObject envs outDir bucket pre fn f st).puts = [] ∧
    (MutateObject envs outDir bucket pre fn f st).outcome ≠
      Outcome.fail GoErr.errIndexOutOfDate ∧
    ((MutateObject envs outDir bucket pre fn f st).fCalls = 1 →
      (MutateObject envs outDir bucket pre fn f st).outcome =
        Outcome.fail (GoErr.wrap "action failed" e)) := by
  rw [MutateObject_single]
  rcases hget : (envs 0).get with ⟨tp, body⟩ | er
  · rcases body with eb | idx
    · rw [mutateObjectInner_read_error (envs 0) outDir bucket pre fn f st tp eb hget]
      exact ⟨rfl, rfl, by simp, by intro h; simp at h⟩
    · rcases hwf : (envs 0).writeFileErr with _ | ew
      · rw [mutateObjectInner_fetch_success (envs 0) outDir bucket pre fn f st tp idx hget hwf,
          mutateWriteBack_action_error (envs 0) (goFilepathJoin outDir fn) bucket
            (goFilepathJoin pre fn) f (some idx) (awsToString tp) e (hf (some idx))]
        exact ⟨rfl, rfl, by simp, fun _ => rfl⟩
      · rw [mutateObjectInner_writeFile_error (envs 0) outDir bucket pre fn f st tp idx ew
          hget hwf]
        exact ⟨rfl, rfl, by simp, by intro h; simp at h⟩
  · rcases er with m | m | m
    · rw [mutateObjectInner_fetch_notFound (envs 0) outDir bucket pre fn f st m hget,
        mutateWriteBack_action_error (envs 0) (goFilepathJoin outDir fn) bucket
          (goFilepathJoin pre fn) f st "" e (hf st)]
      exact ⟨rfl, rfl, by simp, fun _ => rfl⟩
    · rw [mutateObjectInner_fetch_generic (envs 0) outDir bucket pre fn f st
        (ExtErr.precondFailed m) hget rfl]
      exact ⟨rfl, rfl, by simp, by intro h; simp at h⟩
    · rw [mutateObjectInner_fetch_generic (envs 0) outDir bucket pre fn f st
        (ExtErr.generic m) hget rfl]
      exact ⟨rfl, rfl, by simp, by intro h; simp at h⟩

/-- Witness for C6: with an existing remote object and an always-failing
closure, one attempt runs, no write is issued, and the outcome is the
wrapped closure failure. -/
theorem C6_mutation_failure_immediate_witness :
    (MutateObject (fun _ => envWithEtag) "/tmp/x" "b" "charts" "index.yaml"
        mutFail (some "v0")).attempts = 1 ∧
    (MutateObject (fun _ => envWithEtag) "/tmp/x" "b" "charts" "index.yaml"
        mutFail (some "v0")).puts = [] ∧
    (MutateObject (fun _ => envWithEtag) "/tmp/x" "b" "charts" "index.yaml"
        mutFail (some "v0")).outcome ≠ Outcome.fail GoErr.errIndexOutOfDate ∧
    ((MutateObject (fun _ => envWithEtag) "/tmp/x" "b" "charts" "index.yaml"
        mutFail (some "v0")).fCalls = 1 →
      (MutateObject (fun _ => envWithEtag) "/tmp/x" "b" "charts" "index.yaml"
          mutFail (some "v0")).outcome =
        Outcome.fail (GoErr.wrap "action failed" (GoErr.errorf "boom"))) :=
  C6_mutation_failure_immediate (fun _ => envWithEtag) "/tmp/x" "b" "charts" "index.yaml"
    mutFail (some "v0") (GoErr.errorf "boom") (fun _ => rfl)

/-- Claim C7 (status: confirmed).  Every write issued by `MutateObject`
sets `ContentType` to `text/yaml` and `CacheControl` to
`no-cache, max-age=0, no-transform`, the directives disabling intermediary
caching. -/
theorem C7_transport_metadata (envs : Nat → AttemptEnv) (outDir bucket pre fn : String)
    (f : Mutation) (st : Option String) :
    ((MutateObject envs outDir bucket pre fn f st).puts.all fun p =>
      p.contentType == some "text/yaml" &&
        p.cacheControl == some "no-cache, max-age=0, no-transform") = true := by
  rw [MutateObject_single, List.all_eq_true]
  intro p hp
  obtain ⟨c, etag, rfl⟩ :=
    mutateObjectInner_puts_shape (envs 0) outDir bucket pre fn f st p hp
  simp [putInputFor]

/-- Claim C8 (status: confirmed).  Every fetch and every write issued by
`MutateObject` addresses the same single remote object: the given bucket,
under the key joined from the object prefix and the filename
(`filepath.Join(objectPrefix, filename)`). -/
theorem C8_fetch_and_write_same_key (envs : Nat → AttemptEnv) (outDir bucket pre fn : String)
    (f : Mutation) (st : Option String) :
    ((MutateObject envs outDir bucket pre fn f st).gets.all fun g =>
      g.bucket == bucket && g.key == goFilepathJoin pre fn) = true ∧
    ((MutateObject envs outDir bucket pre fn f st).puts.all fun p =>
      p.bucket == bucket && p.key == goFilepathJoin pre fn) = true := by
  rw [MutateObject_single]
  constructor
  · rw [List.all_eq_true]
    intro g hg
    rw [mutateObjectInner_gets (envs 0) outDir bucket pre fn f st] at hg
    simp only [List.mem_singleton] at hg
    subst hg
    simp
  · rw [List.all_eq_true]
    intro p hp
    obtain ⟨c, etag, rfl⟩ :=
      mutateObjectInner_puts_shape (envs 0) outDir bucket pre fn f st p hp
    simp [putInputFor]

/-- Claim C9 (status: confirmed).  When the fetch succeeds but refreshing
the staging file from it fails — `io.ReadAll` of the body errors, or
`os.WriteFile` errors — `MutateObject` returns that error unwrapped after
one attempt, the closure never runs, and no write is issued: the closure
never runs against a staging file that failed to be refreshed. -/
theorem C9_refresh_failure_skips_closure (envs : Nat → AttemptEnv)
    (outDir bucket pre fn : String) (f : Mutation) (st : Option String)
    (tp : Option String) (idx : String) (e e2 : ExtErr) :
    ((envs 0).get = GetRes.success tp (Except.error e) →
      (MutateObject envs outDir bucket pre fn f st).attempts = 1 ∧
      (MutateObject envs outDir bucket pre fn f st).fCalls = 0 ∧
      (MutateObject envs outDir bucket pre fn f st).puts = [] ∧
      (MutateObject envs outDir bucket pre fn f st).outcome =
        Outcome.fail (GoErr.ext e)) ∧
    ((envs 0).get = GetRes.success tp (Except.ok idx) →
      (envs 0).writeFileErr = some e2 →
      (MutateObject envs outDir bucket pre fn f st).attempts = 1 ∧
      (MutateObject envs outDir bucket pre fn f st).fCalls = 0 ∧
      (MutateObject envs outDir bucket pre fn f st).puts = [] ∧
      (MutateObject envs outDir bucket pre fn f st).outcome =
        Outcome.fail (GoErr.ext e2)) := by
  constructor
  · intro hget
    rw [MutateObject_single,
      mutateObjectInner_read_error (envs 0) outDir bucket pre fn f st tp e hget]
    exact ⟨rfl, rfl, rfl, rfl⟩
  · intro hget hwf
    rw [MutateObject_single,
      mutateObjectInner_writeFile_error (envs 0) outDir bucket pre fn f st tp idx e2 hget hwf]
    exact ⟨rfl, rfl, rfl, rfl⟩

/-- Witness for C9: a body-read failure and an `os.WriteFile` failure each
abort the single attempt before the closure runs. -/
theorem C9_refresh_failure_skips_closure_witness :
    ((MutateObject (fun _ => envReadErr) "/tmp/x" "b" "charts" "index.yaml"
        mutToV1 (some "v0")).attempts = 1 ∧
     (MutateObject (fun _ => envReadErr) "/tmp/x" "b" "charts" "index.yaml"
        mutToV1 (some "v0")).fCalls = 0 ∧
     (MutateObject (fun _ => envReadErr) "/tmp/x" "b" "charts" "index.yaml"
        mutToV1 (some "v0")).puts = [] ∧
     (MutateObject (fun _ => envReadErr) "/tmp/x" "b" "charts" "index.yaml"
        mutToV1 (some "v0")).outcome =
       Outcome.fail (GoErr.ext (ExtErr.generic "connection reset"))) ∧
    ((MutateObject (fun _ => envWriteFileErr) "/tmp/x" "b" "charts" "index.yaml"
        mutToV1 (some "v0")).attempts = 1 ∧
     (MutateObject (fun _ => envWriteFileErr) "/tmp/x" "b" "charts" "index.yaml"
        mutToV1 (some "v0")).fCalls = 0 ∧
     (MutateObject (fun _ => envWriteFileErr) "/tmp/x" "b" "charts" "index.yaml"
        mutToV1 (some "v0")).puts = [] ∧
     (MutateObject (fun _ => envWriteFileErr) "/tmp/x" "b" "charts" "index.yaml"
        mutToV1 (some "v0")).outcome =
       Outcome.fail (GoErr.ext (ExtErr.generic "no space left on device"))) :=
  ⟨(C9_refresh_failure_skips_closure (fun _ => envReadErr) "/tmp/x" "b" "charts" "index.yaml"
      mutToV1 (some "v0") (some "etag1") "v1" (ExtErr.generic "connection reset")
      (ExtErr.generic "no space left on device")).1 rfl,
   (C9_refresh_failure_skips_closure (fun _ => envWriteFileErr) "/tmp/x" "b" "charts"
      "index.yaml" mutToV1 (some "v0") (some "etag1") "v1" (ExtErr.generic "connection reset")
      (ExtErr.generic "no space left on device")).2 rfl rfl⟩

/-- Claim C10 (status: code_bug).  When the remote object does not exist
and the staging file still does not exist after the closure succeeds, the
claim — matching the evident intent of the error-return on s3.go:180-183 —
is that `MutateObject` returns the error from opening the staging file and
issues no `Put`.  No `Put` is indeed issued, but instead of returning an
error the code panics: on the failure path of `os.Open` it formats the
message with `res.Name()` where `res` is a nil `*os.File`, dereferencing a
nil pointer.  This theorem evaluates the embedding at the failing input:
the outcome is the runtime panic, not an error return. -/
theorem C10_missing_staging_file_panics :
    (MutateObject (fun _ => envNotFoundOk) "/tmp/x" "b" "charts" "index.yaml"
        mutKeep none).puts = [] ∧
    (MutateObject (fun _ => envNotFoundOk) "/tmp/x" "b" "charts" "index.yaml"
        mutKeep none).fCalls = 1 ∧
    (MutateObject (fun _ => envNotFoundOk) "/tmp/x" "b" "charts" "index.yaml"
        mutKeep none).outcome =
      Outcome.crashed "invalid memory address or nil pointer dereference" := by
  decide
